import Mathlib

/-!
# Verification of the oboete flashcard application's page state machines

Shallow embedding of `src/models.rs`, `src/flashcards.rs` and the
message-handling part of `src/app.rs`.  Rust `i32` values are modelled as
`Int` (no arithmetic is performed on them, so no overflow wrapping is
needed), `Option<i32>` as `Option Int`, `String` as `String`,
`Vec<T>` as `List T`.
-/

/-- `Flashcard` from `src/models.rs`. -/
structure Flashcard where
  id : Option Int
  front : String
  back : String
  status : Int
  deriving Repr, DecidableEq

/-- `Folder` from `src/models.rs`. -/
structure Folder where
  id : Option Int
  name : String
  flashcards : List Flashcard
  deriving Repr, DecidableEq

/-- `StudySet` from `src/models.rs`. -/
structure StudySet where
  id : Option Int
  name : String
  folders : List Folder
  deriving Repr, DecidableEq

/-- `CreateEditFlashcardState` from `src/flashcards.rs`. -/
structure CreateEditFlashcardState where
  id : Option Int
  front : String
  back : String
  status : Int
  deriving Repr, DecidableEq

/-- `CurrentFlashcardSide` from `src/flashcards.rs`. -/
inductive CurrentFlashcardSide where
  | Front
  | Back
  deriving Repr, DecidableEq

/-- `StudyActions` from `src/flashcards.rs`. -/
inductive StudyActions where
  | Bad
  | Ok
  | Good
  deriving Repr, DecidableEq

/-- The `Flashcards` page state from `src/flashcards.rs`. -/
structure Flashcards where
  current_folder_id : Int
  flashcards : List Flashcard
  new_edit_flashcard : CreateEditFlashcardState
  currently_studying_flashcard : Flashcard
  currently_studying_flashcard_side : CurrentFlashcardSide
  deriving Repr, DecidableEq

namespace FlashcardsPage

/-- `Message` from `src/flashcards.rs`. -/
inductive Message where
  | Upsert
  | Upserted
  | Load
  | LoadedSingle (flashcard : Flashcard)
  | SetFlashcards (flashcards : List Flashcard)
  | ToggleCreatePage (flashcard : Option Flashcard)
  | StudyFlashcards
  | ContextPageFrontInput (value : String)
  | ContextPageBackInput (value : String)
  | UpdateFlashcardStatus (flashcard : Flashcard) (action : StudyActions)
  | UpdatedStatus (flashcards : List Flashcard)
  | SwapFlashcardSide
  | Delete (flashcard_id : Option Int)
  deriving Repr, DecidableEq

/-- `Command` from `src/flashcards.rs`.  The `Int` is the folder id. -/
inductive Command where
  | LoadFlashcards (folder_id : Int)
  | ToggleCreateFlashcardPage (flashcard : Option Flashcard)
  | UpsertFlashcard (flashcard : Flashcard)
  | OpenStudyFolderFlashcardsPage
  | UpdateFlashcardStatus (flashcard : Flashcard)
  | DeleteFlashcard (flashcard_id : Option Int)
  deriving Repr, DecidableEq

end FlashcardsPage

/-- Modelled from the spec: `select_random_flashcard` lives in
`crate::utils`, which is not among the provided source files.  The spec
describes it as "select a random flashcard from a collection for the study
session", where "random selection returns an element from the input set, or
a defined fallback when the set is empty".  The call site in
`src/flashcards.rs` (`.unwrap_or(...)`) shows it returns an `Option`, with
`None` as the empty-collection outcome handled by the caller's fallback.
Randomness is modelled by an explicit `seed`; for a nonempty list the
function returns the element at index `seed % length`, hence always an
element of the input list. -/
def select_random_flashcard (seed : Nat) (flashcards : List Flashcard) :
    Option Flashcard :=
  if h : flashcards.isEmpty then none
  else
    some (flashcards.get ⟨seed % flashcards.length, Nat.mod_lt _ (by
      cases flashcards with
      | nil => simp [List.isEmpty] at h
      | cons a l => exact Nat.succ_pos _)⟩)

/-- `Flashcards::new` from `src/flashcards.rs`. -/
def Flashcards.new : Flashcards :=
  { current_folder_id := 0
    flashcards := []
    currently_studying_flashcard :=
      { id := none, front := "Error", back := "Error", status := 0 }
    new_edit_flashcard :=
      { id := none, front := "", back := "", status := 0 }
    currently_studying_flashcard_side := CurrentFlashcardSide.Front }

/-- `Flashcards::update` from `src/flashcards.rs`.  The Rust method mutates
`self` and returns a `Vec<Command>`; here it returns the new state together
with the command list.  `seed` feeds the modelled
`select_random_flashcard`. -/
def Flashcards.update (self : Flashcards) (message : FlashcardsPage.Message)
    (seed : Nat) : Flashcards × List FlashcardsPage.Command :=
  match message with
  | .Upsert =>
      (self,
       [FlashcardsPage.Command.UpsertFlashcard
         { id := self.new_edit_flashcard.id
           front := self.new_edit_flashcard.front
           back := self.new_edit_flashcard.back
           status := self.new_edit_flashcard.status }])
  | .Upserted =>
      ({ self with new_edit_flashcard :=
          { id := none, front := "", back := "", status := 0 } },
       [FlashcardsPage.Command.LoadFlashcards self.current_folder_id])
  | .LoadedSingle flashcard =>
      ({ self with new_edit_flashcard :=
          { id := flashcard.id
            front := flashcard.front
            back := flashcard.back
            status := flashcard.status } },
       [])
  | .SetFlashcards flashcards =>
      ({ self with flashcards := flashcards }, [])
  | .ToggleCreatePage flashcard =>
      (if flashcard.isNone then
        { self with new_edit_flashcard :=
            { id := none, front := "", back := "", status := 0 } }
       else self,
       [FlashcardsPage.Command.ToggleCreateFlashcardPage flashcard])
  | .StudyFlashcards =>
      (self, [FlashcardsPage.Command.OpenStudyFolderFlashcardsPage])
  | .ContextPageFrontInput value =>
      ({ self with new_edit_flashcard :=
          { self.new_edit_flashcard with front := value } }, [])
  | .ContextPageBackInput value =>
      ({ self with new_edit_flashcard :=
          { self.new_edit_flashcard with back := value } }, [])
  | .UpdateFlashcardStatus flashcard action =>
      let graded :=
        match action with
        | .Bad => { flashcard with status := 1 }
        | .Ok => { flashcard with status := 2 }
        | .Good => { flashcard with status := 3 }
      (self, [FlashcardsPage.Command.UpdateFlashcardStatus graded])
  | .UpdatedStatus flashcards =>
      ({ self with
          flashcards := flashcards
          currently_studying_flashcard :=
            (select_random_flashcard seed flashcards).getD
              { id := none, front := "Error", back := "Error", status := 0 } },
       [])
  | .SwapFlashcardSide =>
      ({ self with currently_studying_flashcard_side :=
          match self.currently_studying_flashcard_side with
          | .Front => CurrentFlashcardSide.Back
          | .Back => CurrentFlashcardSide.Front }, [])
  | .Delete flashcard_id =>
      (self, [FlashcardsPage.Command.DeleteFlashcard flashcard_id])
  | .Load =>
      (self, [FlashcardsPage.Command.LoadFlashcards self.current_folder_id])

/-- Modelled from the spec: `OboeteError` lives in `crate::utils`, which is
not among the provided source files.  The spec only says "Errors from the
database layer are collapsed to an empty result set on load failure"; the
error's content is never inspected by the handler, so it is modelled as a
bare message carrier. -/
structure OboeteError where
  message : String
  deriving Repr, DecidableEq

/-- Modelled from the spec: `OboeteDb` lives in `crate::core::database`,
which is not among the provided source files.  The spec calls it "a thin
wrapper type" managing the database connection; its content is never
inspected by the handlers modelled here. -/
structure OboeteDb where
  deriving Repr, DecidableEq

namespace App

/-- `ContextPage` from `src/app.rs`. -/
inductive ContextPage where
  | About
  | NewStudySet
  | NewFolder
  | NewFlashcard
  deriving Repr, DecidableEq

/-- `Message` from `src/app.rs`.  Rust's `Result<Vec<StudySet>, OboeteError>`
is modelled as `Except OboeteError (List StudySet)`. -/
inductive Message where
  | LaunchUrl (url : String)
  | ToggleContextPage (context_page : ContextPage)
  | DbConnected (db : OboeteDb)
  | LoadedStudySets (studysets : Except OboeteError (List StudySet))
  | NewStudySetNameInput (value : String)
  | CreateStudySet
  | StudySetCreated
  deriving Repr

/-- The asynchronous command returned by `Oboete::update` in `src/app.rs`.
The Rust code returns either `Command::none()` or a single
`cosmic::app::Command::perform(...)` of one of the two database futures
used by the handlers. -/
inductive Command where
  | none
  | performGetAllStudySets
  | performUpsertStudySet (studyset : StudySet)
  deriving Repr, DecidableEq

end App

/-- `NewStudySetState` from `src/app.rs`. -/
structure NewStudySetState where
  name : String
  deriving Repr, DecidableEq

/-- `OboeteState` from `src/app.rs`. -/
structure OboeteState where
  studysets : List StudySet
  new_studyset : NewStudySetState
  deriving Repr, DecidableEq

/-- The message-relevant fields of the `Oboete` application struct from
`src/app.rs`: `state`, `db`, the `context_page`, and the framework-held
`core.window.show_context` flag.  The nav-bar model, key binds and window
titles are pure presentation state never touched by the handlers under
verification. -/
structure Oboete where
  context_page : App.ContextPage
  db : Option OboeteDb
  state : OboeteState
  show_context : Bool
  deriving Repr, DecidableEq

/-- `Oboete::update` from `src/app.rs`, lines 215-278.  The Rust method
mutates `self` and returns a single `Command`; here it returns the new
state paired with the command.  `Message::LaunchUrl` only calls
`open::that_detached` (an OS side effect) and changes no state. -/
def Oboete.update (self : Oboete) (message : App.Message) :
    Oboete × App.Command :=
  match message with
  | .LaunchUrl _ => (self, App.Command.none)
  | .ToggleContextPage context_page =>
      (if self.context_page = context_page then
        { self with show_context := !self.show_context }
       else
        { self with context_page := context_page, show_context := true },
       App.Command.none)
  | .DbConnected db =>
      ({ self with db := some db }, App.Command.performGetAllStudySets)
  | .LoadedStudySets studysets =>
      (match studysets with
       | .ok studysets => { self with state :=
           { self.state with studysets := studysets } }
       | .error _ => { self with state :=
           { self.state with studysets := [] } },
       App.Command.none)
  | .NewStudySetNameInput value =>
      ({ self with state :=
          { self.state with new_studyset := { name := value } } },
       App.Command.none)
  | .CreateStudySet =>
      (self,
       App.Command.performUpsertStudySet
        { id := none
          name := self.state.new_studyset.name
          folders := [] })
  | .StudySetCreated =>
      ({ self with
          show_context := false
          state := { self.state with new_studyset := { name := "" } } },
       App.Command.performGetAllStudySets)

/-! ## Theorems -/

/-- C1: for every non-empty list of flashcards delivered via
`Message::UpdatedStatus`, `select_random_flashcard` returns `some` card
that is an element of that list, and the `Flashcards` state's
`currently_studying_flashcard` is set to that element. -/
theorem updatedStatus_nonempty_selects_member (st : Flashcards)
    (l : List Flashcard) (seed : Nat) (h : l ≠ []) :
    ∃ c, select_random_flashcard seed l = some c ∧ c ∈ l ∧
      (st.update (FlashcardsPage.Message.UpdatedStatus l) seed).1.currently_studying_flashcard
        = c := by
  have hne : l.isEmpty = false := by
    cases l with
    | nil => exact absurd rfl h
    | cons a t => rfl
  refine ⟨l.get ⟨seed % l.length, Nat.mod_lt _ (List.length_pos.mpr h)⟩,
    ?_, List.get_mem _ _ _, ?_⟩
  · simp [select_random_flashcard, hne]
  · simp [Flashcards.update, select_random_flashcard, hne]

/-- Witness for C1 at a concrete one-card list. -/
theorem updatedStatus_nonempty_selects_member_witness :
    ∃ c, select_random_flashcard 0
        [{ id := some 1, front := "a", back := "b", status := 0 }] = some c ∧
      c ∈ [({ id := some 1, front := "a", back := "b", status := 0 } : Flashcard)] ∧
      (Flashcards.new.update (FlashcardsPage.Message.UpdatedStatus
          [{ id := some 1, front := "a", back := "b", status := 0 }])
        0).1.currently_studying_flashcard = c :=
  updatedStatus_nonempty_selects_member Flashcards.new
    [{ id := some 1, front := "a", back := "b", status := 0 }] 0 (by decide)

/-- C2: for the empty list delivered via `Message::UpdatedStatus`, the
selection falls back to the placeholder card with id `none`, front
`"Error"`, back `"Error"`, status `0`. -/
theorem updatedStatus_empty_placeholder (st : Flashcards) (seed : Nat) :
    (st.update (FlashcardsPage.Message.UpdatedStatus []) seed).1.currently_studying_flashcard
      = { id := none, front := "Error", back := "Error", status := 0 } := rfl

/-- C3: handling `Message::UpdateFlashcardStatus(card, action)` grades the
card's status — `Bad` to 1, `Ok` to 2, `Good` to 3 — and emits exactly a
`Command::UpdateFlashcardStatus` carrying that graded card, changing no
state. -/
theorem updateFlashcardStatus_grades_and_emits (st : Flashcards)
    (card : Flashcard) (action : StudyActions) (seed : Nat) :
    st.update (FlashcardsPage.Message.UpdateFlashcardStatus card action) seed =
      (st, [FlashcardsPage.Command.UpdateFlashcardStatus
        { card with status :=
            match action with
            | .Bad => 1
            | .Ok => 2
            | .Good => 3 }]) := by
  cases action <;> rfl

/-- C4: when a load of study sets fails, the in-memory study set list is set
to the empty vector, with no other state change and no command emitted. -/
theorem loadedStudySets_error_collapses_to_empty (app : Oboete)
    (e : OboeteError) :
    app.update (App.Message.LoadedStudySets (Except.error e)) =
      ({ app with state := { app.state with studysets := [] } },
       App.Command.none) := rfl

/-- C5: after an upsert completes the full list is reloaded: `Upserted`
resets the create/edit state to empty and emits
`LoadFlashcards(current_folder_id)`; `StudySetCreated` clears the
new-studyset name and dispatches `get_all_studysets`. -/
theorem upsert_completion_reloads (st : Flashcards) (seed : Nat)
    (app : Oboete) :
    st.update FlashcardsPage.Message.Upserted seed =
      ({ st with new_edit_flashcard :=
          { id := none, front := "", back := "", status := 0 } },
       [FlashcardsPage.Command.LoadFlashcards st.current_folder_id]) ∧
    app.update App.Message.StudySetCreated =
      ({ app with
          show_context := false
          state := { app.state with new_studyset := { name := "" } } },
       App.Command.performGetAllStudySets) :=
  ⟨rfl, rfl⟩

/-- C6: identifiers are unset until persisted: `CreateStudySet` builds a
`StudySet` with id `none` and empty folders, `ToggleCreatePage(None)`
resets the flashcard editor's id to `none`, and `Flashcards::new`
initialises every held flashcard with id `none`. -/
theorem ids_unset_until_persisted (app : Oboete) (st : Flashcards)
    (seed : Nat) :
    (app.update App.Message.CreateStudySet).2 =
      App.Command.performUpsertStudySet
        { id := none, name := app.state.new_studyset.name, folders := [] } ∧
    (st.update (FlashcardsPage.Message.ToggleCreatePage none) seed).1.new_edit_flashcard.id
      = none ∧
    (∀ c ∈ Flashcards.new.flashcards, c.id = none) ∧
    Flashcards.new.currently_studying_flashcard.id = none ∧
    Flashcards.new.new_edit_flashcard.id = none := by
  refine ⟨rfl, rfl, ?_, rfl, rfl⟩
  intro c hc
  simp [Flashcards.new] at hc

/-- C7: list updates are whole-list replacements: both
`Message::SetFlashcards` and `Message::UpdatedStatus` make the `flashcards`
field equal the delivered list exactly, whatever the previous contents. -/
theorem flashcards_whole_list_replacement (st : Flashcards)
    (l : List Flashcard) (seed : Nat) :
    (st.update (FlashcardsPage.Message.SetFlashcards l) seed).1.flashcards = l ∧
    (st.update (FlashcardsPage.Message.UpdatedStatus l) seed).1.flashcards = l :=
  ⟨rfl, rfl⟩

/-- C8: `Message::SwapFlashcardSide` is an involution on the study view:
one application toggles `currently_studying_flashcard_side` between `Front`
and `Back`, two consecutive applications restore the original state, and
each application emits no commands and changes no other field. -/
theorem swapFlashcardSide_involution (st : Flashcards) (seed seed2 : Nat) :
    (st.update FlashcardsPage.Message.SwapFlashcardSide seed).1.currently_studying_flashcard_side
      = (match st.currently_studying_flashcard_side with
         | .Front => CurrentFlashcardSide.Back
         | .Back => CurrentFlashcardSide.Front) ∧
    ((st.update FlashcardsPage.Message.SwapFlashcardSide seed).1.update
        FlashcardsPage.Message.SwapFlashcardSide seed2).1 = st ∧
    (st.update FlashcardsPage.Message.SwapFlashcardSide seed).2 = [] ∧
    (st.update FlashcardsPage.Message.SwapFlashcardSide seed).1.current_folder_id
      = st.current_folder_id ∧
    (st.update FlashcardsPage.Message.SwapFlashcardSide seed).1.flashcards
      = st.flashcards ∧
    (st.update FlashcardsPage.Message.SwapFlashcardSide seed).1.new_edit_flashcard
      = st.new_edit_flashcard ∧
    (st.update FlashcardsPage.Message.SwapFlashcardSide seed).1.currently_studying_flashcard
      = st.currently_studying_flashcard := by
  obtain ⟨fid, fs, ne, cur, side⟩ := st
  cases side <;> exact ⟨rfl, rfl, rfl, rfl, rfl, rfl, rfl⟩

/-- C9: for every message, `Flashcards::update` returns a command vector of
length at most one. -/
theorem update_at_most_one_command (st : Flashcards)
    (msg : FlashcardsPage.Message) (seed : Nat) :
    (st.update msg seed).2.length ≤ 1 := by
  cases msg <;> simp [Flashcards.update]

/-- C10: command-only messages leave the page state unchanged: `Upsert`,
`Load`, `StudyFlashcards` and `Delete` modify no field of the `Flashcards`
state and only emit the corresponding command. -/
theorem command_only_messages_frame (st : Flashcards) (seed : Nat)
    (fid : Option Int) :
    st.update FlashcardsPage.Message.Upsert seed =
      (st, [FlashcardsPage.Command.UpsertFlashcard
        { id := st.new_edit_flashcard.id
          front := st.new_edit_flashcard.front
          back := st.new_edit_flashcard.back
          status := st.new_edit_flashcard.status }]) ∧
    st.update FlashcardsPage.Message.Load seed =
      (st, [FlashcardsPage.Command.LoadFlashcards st.current_folder_id]) ∧
    st.update FlashcardsPage.Message.StudyFlashcards seed =
      (st, [FlashcardsPage.Command.OpenStudyFolderFlashcardsPage]) ∧
    st.update (FlashcardsPage.Message.Delete fid) seed =
      (st, [FlashcardsPage.Command.DeleteFlashcard fid]) :=
  ⟨rfl, rfl, rfl, rfl⟩
